import Mathlib

/-!
Shallow embedding of the disney-streaming-clone widget sources
(`thumbnail.rs`, `root_widget.rs`, `content_set.rs`, `main.rs`).

The widgets are pure state machines over discrete events; we model each
widget struct as a Lean structure and each `on_event` arm as a function
from the widget state (plus the event payload) to the new widget state
together with the effects it requested on the `EventCtx`
(`request_anim_frame`, `request_layout`, `request_pan_to_this`,
`submit_command`).  `usize` is modelled as `Nat`, with the saturating
arithmetic of `saturating_add` / `saturating_sub` made explicit at the
64-bit bound where the source uses it.
-/

namespace Disney

/-- The value of `usize::MAX` on the 64-bit targets this desktop app runs on,
as a numeral: 2 ^ 64 - 1. -/
def usizeMax : Nat := 18446744073709551615

/-- Rust `usize::saturating_add`. -/
def satAdd (a b : Nat) : Nat := min (a + b) usizeMax

/-- Rust `usize::saturating_sub` (on `Nat`, subtraction already saturates at 0). -/
def satSub (a b : Nat) : Nat := a - b

/-- Source constant: thumbnail.rs line 60 bounds `selected_progress` by
the literal `5`; the spec names it MAX_STEPS. -/
def MAX_STEPS : Nat := 5

/-- The effects a widget can request on its `EventCtx` during one event. -/
structure CtxEffects where
  animFrameRequested : Bool := false
  layoutRequested : Bool := false
  panRequested : Bool := false
  deriving DecidableEq, Repr

/-- Struct `Thumbnail` (thumbnail.rs lines 11-22).  The `inner` WidgetPod holds a
`WebImage` built from the thumbnail URL; we keep the URL, which is the only
state of `inner` the constructor fixes. -/
structure Thumbnail where
  row : Nat
  column : Nat
  thumbnailUrl : String
  selected : Bool
  selected_progress : Nat
  deriving DecidableEq, Repr

namespace Thumbnail

/-- Constructor `Thumbnail::new` (thumbnail.rs lines 25-34). -/
def new (row column : Nat) (thumbnail_url : String) : Thumbnail :=
  { row := row
    column := column
    thumbnailUrl := thumbnail_url
    selected := false
    selected_progress := 0 }

/-- The item's address for selection matching. -/
def coord (t : Thumbnail) : Nat × Nat := (t.row, t.column)

/-- Handler `Thumbnail::on_event`, arm `Event::Command(CHANGE_SELECTED_ITEM)`
(thumbnail.rs lines 43-56).  `rc` is the `(row, col)` the command carries. -/
def onChangeSelectedItem (t : Thumbnail) (rc : Nat × Nat) :
    Thumbnail × CtxEffects :=
  if rc = (t.row, t.column) then
    ({ t with selected := true },
     { animFrameRequested := true, layoutRequested := true,
       panRequested := true })
  else if t.selected then
    ({ t with selected := false },
     { animFrameRequested := true, layoutRequested := true })
  else
    (t, {})

/-- Handler `Thumbnail::on_event`, arm `Event::AnimFrame` (thumbnail.rs lines 58-72). -/
def onAnimFrame (t : Thumbnail) : Thumbnail × CtxEffects :=
  if t.selected then
    if t.selected_progress < 5 then
      ({ t with selected_progress := t.selected_progress + 1 },
       { animFrameRequested := true, layoutRequested := true })
    else
      (t, {})
  else
    if t.selected_progress > 0 then
      ({ t with selected_progress := t.selected_progress - 1 },
       { animFrameRequested := true, layoutRequested := true })
    else
      (t, {})

end Thumbnail

/-- Delivering one `CHANGE_SELECTED_ITEM` broadcast to every thumbnail of a
tree snapshot: `submit_command` with no target delivers the command to each
widget, so each `Thumbnail` runs its `Event::Command` arm once. -/
def broadcast (rc : Nat × Nat) (ts : List Thumbnail) : List Thumbnail :=
  ts.map fun t => (t.onChangeSelectedItem rc).1

/-- At most one thumbnail in the list is selected. -/
def atMostOneSelected (ts : List Thumbnail) : Prop :=
  ts.countP (fun t => t.selected) ≤ 1

/-- Modelled from the spec: `PromiseToken<T>` lives in the
`widget_cruncher` framework, which is not part of this repository.
Spec §4.2: `mint()` produces a token unique across the process lifetime;
`PromiseToken::empty()` is the distinguished empty token.  We model a
minted token as `some id` and the empty token as `none`. -/
abbrev PromiseToken := Option Nat

/-- Modelled from the spec: `PromiseResult::try_get` is framework code.
Spec §4.2: on result delivery the handler checks whether the delivered
token matches the token the node currently holds; only on match is the
payload accepted. -/
def promiseAccepts (stored : PromiseToken) (delivered : Nat) : Bool :=
  stored = some delivered

/-- Struct `ContentSetMetadata` (content_set.rs lines 11-14). -/
structure ContentSetMetadata where
  title : String
  ref_id : String
  deriving DecidableEq, Repr

/-- One child of a `ContentSet`'s `Flex` column: the title `Label`, the
`SizedBox(Spinner)` placeholder built by `ContentSet::new`, or the
`ClipBox::new(Flex::row of Thumbnails)` the rebuild installs. -/
inductive RowChild where
  | label (text : String)
  | sizedSpinner
  | clipbox (thumbs : List Thumbnail)
  deriving DecidableEq, Repr

/-- Struct `ContentSet` (content_set.rs lines 16-28). -/
structure ContentSet where
  data : ContentSetMetadata
  row : Nat
  children_promise : PromiseToken
  children : List RowChild
  deriving DecidableEq, Repr

namespace ContentSet

/-- Constructor `ContentSet::new` (content_set.rs lines 33-48). -/
def new (row : Nat) (data : ContentSetMetadata) : ContentSet :=
  { data := data
    row := row
    children_promise := none
    children := [RowChild.label data.title, RowChild.sizedSpinner] }

/-- The rebuild closure of `ContentSet::on_event` (content_set.rs lines
86-99): clear, re-add a `Label` with the title, then a `ClipBox` holding
one `Thumbnail::new(row, column, url)` per delivered URL, columns assigned
by `enumerate()`. -/
def rebuildChildren (row : Nat) (title : String) (urls : List String) :
    List RowChild :=
  [RowChild.label title,
   RowChild.clipbox (urls.enum.map fun p => Thumbnail.new row p.1 p.2)]

/-- Handler `ContentSet::on_event`, arm `Event::PromiseResult` (content_set.rs
lines 78-104): if the delivered token matches `self.children_promise`,
rebuild the children from the payload.  Modelled from the spec (§4.2):
after a match the node's pending token is cleared to empty — the clearing
is performed by the framework side of `try_get`, not by code under src/. -/
def onPromiseResult (cs : ContentSet) (delivered : Nat)
    (payload : List String) : ContentSet :=
  if promiseAccepts cs.children_promise delivered then
    { cs with
      children := rebuildChildren cs.row cs.data.title payload
      children_promise := none }
  else
    cs

/-- Handler `ContentSet::lifecycle`, arm `LifeCycle::WidgetAdded` (content_set.rs
lines 123-126): store the token of the freshly scheduled background fetch
in `self.children_promise`. -/
def onWidgetAdded (cs : ContentSet) (freshToken : Nat) : ContentSet :=
  { cs with children_promise := some freshToken }

end ContentSet

/-- One child of the `RootWidget`'s `Flex` column: the initial `Spinner`
placeholder, a `ContentSet`, or a `add_spacer(30.0)` spacer (height kept
as the integer 30). -/
inductive RootChild where
  | spinner
  | contentSet (cs : ContentSet)
  | spacer (height : Nat)
  deriving DecidableEq, Repr

/-- Type `Key` (from `widget_cruncher::shell::keyboard_types`): the four arrow
keys the handler matches on, and every other key (carrying its name). -/
inductive Key where
  | arrowDown
  | arrowLeft
  | arrowRight
  | arrowUp
  | other (name : String)
  deriving DecidableEq, Repr

/-- A command submitted via `ctx.submit_command`. -/
inductive Cmd where
  | changeSelectedItem (coord : Nat × Nat)
  | requestFocus
  deriving DecidableEq, Repr

/-- Struct `RootWidget` (root_widget.rs lines 34-45). -/
structure RootWidget where
  children_promise : PromiseToken
  children : List RootChild
  selected_item : Nat × Nat
  deriving DecidableEq, Repr

namespace RootWidget

/-- Constructor `RootWidget::new` (root_widget.rs lines 48-57). -/
def new : RootWidget :=
  { children_promise := none
    children := [RootChild.spinner]
    selected_item := (0, 0) }

/-- The rebuild closure of `RootWidget::on_event` (root_widget.rs lines
74-88): clear the flex, then for each metadata entry (enumerated as the
row index) add `ContentSet::new(row, child)` followed by a 30.0 spacer. -/
def rebuildChildren (metas : List ContentSetMetadata) : List RootChild :=
  metas.enum.flatMap fun p =>
    [RootChild.contentSet (ContentSet.new p.1 p.2), RootChild.spacer 30]

/-- Handler `RootWidget::on_event`, arm `Event::PromiseResult` (root_widget.rs
lines 67-93).  Modelled from the spec (§4.2) in the same way as
`ContentSet.onPromiseResult`: the pending token is cleared on match. -/
def onPromiseResult (rw : RootWidget) (delivered : Nat)
    (payload : List ContentSetMetadata) : RootWidget :=
  if promiseAccepts rw.children_promise delivered then
    { rw with
      children := rebuildChildren payload
      children_promise := none }
  else
    rw

/-- Handler `RootWidget::lifecycle`, arm `LifeCycle::WidgetAdded` (root_widget.rs
lines 142-145): store the token of the scheduled catalog fetch. -/
def onWidgetAdded (rw : RootWidget) (freshToken : Nat) : RootWidget :=
  { rw with children_promise := some freshToken }

/-- Handler `RootWidget::on_event`, arm `Event::KeyDown` (root_widget.rs lines
95-114): update one axis of `selected_item` with saturating `usize`
arithmetic (or neither axis, for a non-arrow key), then submit
`CHANGE_SELECTED_ITEM` carrying `self.selected_item`. -/
def onKeyDown (rw : RootWidget) (k : Key) : RootWidget × List Cmd :=
  let sel :=
    match k with
    | Key.arrowDown => (satAdd rw.selected_item.1 1, rw.selected_item.2)
    | Key.arrowLeft => (rw.selected_item.1, satSub rw.selected_item.2 1)
    | Key.arrowRight => (rw.selected_item.1, satAdd rw.selected_item.2 1)
    | Key.arrowUp => (satSub rw.selected_item.1 1, rw.selected_item.2)
    | Key.other _ => rw.selected_item
  ({ rw with selected_item := sel }, [Cmd.changeSelectedItem sel])

end RootWidget

/-- The error cases of a fetch: `reqwest::Error` (network / non-2xx /
body-decode), or the malformed-JSON and missing-field cases the parsers
surface. -/
inductive FetchError where
  | network
  | malformedJson
  | missingField
  deriving DecidableEq, Repr

/-- Rust `Result::unwrap` as the background closures of root_widget.rs line 144
and content_set.rs line 125 apply it to the fetch result: on `Ok v` the
work produces `v`; on `Err _` the closure panics, so no value is ever
delivered (modelled as `none`). -/
def rustUnwrap {ε α : Type} (r : Except ε α) : Option α :=
  match r with
  | Except.ok v => some v
  | Except.error _ => none

/-! Concrete sample states used by the witness theorems. -/

/-- A thumbnail at (0,0) that is selected with the animation mid-flight. -/
def sampleThumb : Thumbnail :=
  { row := 0, column := 0, thumbnailUrl := "u1", selected := true,
    selected_progress := 3 }

/-- A catalog entry as in spec §8 scenario A. -/
def sampleMeta : ContentSetMetadata := { title := "Action", ref_id := "x1" }

/-- A freshly attached row whose fetch (token 1) is in flight. -/
def samplePendingCS : ContentSet := (ContentSet.new 0 sampleMeta).onWidgetAdded 1

/-- A freshly attached root whose catalog fetch (token 1) is in flight. -/
def samplePendingRoot : RootWidget := RootWidget.new.onWidgetAdded 1

/-- A root whose cursor sits at (3, 4). -/
def sampleRoot : RootWidget :=
  { children_promise := none, children := [], selected_item := (3, 4) }

/-- A root whose cursor row has saturated at `usize::MAX`. -/
def sampleRootAtMax : RootWidget :=
  { children_promise := none, children := [], selected_item := (usizeMax, 0) }

/-- Claim C2: per animation tick, `selected_progress` stays in
[0, MAX_STEPS], is non-decreasing while selected and non-increasing while
not, changes by exactly 0 or 1, and another tick is requested exactly when
the progress changed (at the bound the machine is at rest). -/
theorem anim_tick_step (t : Thumbnail) (h : t.selected_progress ≤ MAX_STEPS) :
    (t.onAnimFrame).1.selected_progress ≤ MAX_STEPS ∧
    (t.selected = true →
      t.selected_progress ≤ (t.onAnimFrame).1.selected_progress) ∧
    (t.selected = false →
      (t.onAnimFrame).1.selected_progress ≤ t.selected_progress) ∧
    ((t.onAnimFrame).1.selected_progress = t.selected_progress ∨
      (t.onAnimFrame).1.selected_progress = t.selected_progress + 1 ∨
      (t.onAnimFrame).1.selected_progress + 1 = t.selected_progress) ∧
    ((t.onAnimFrame).2.animFrameRequested = true ↔
      (t.onAnimFrame).1.selected_progress ≠ t.selected_progress) := by
  obtain ⟨r, c, u, sel, p⟩ := t
  simp only [Thumbnail.onAnimFrame, MAX_STEPS] at *
  cases sel <;> split_ifs <;> simp_all <;> omega

/-- Witness for `anim_tick_step` at `sampleThumb` (selected, progress 3). -/
theorem anim_tick_step_witness :
    sampleThumb.selected_progress ≤ MAX_STEPS ∧
    ((sampleThumb.onAnimFrame).1.selected_progress ≤ MAX_STEPS ∧
      (sampleThumb.selected = true →
        sampleThumb.selected_progress ≤
          (sampleThumb.onAnimFrame).1.selected_progress) ∧
      (sampleThumb.selected = false →
        (sampleThumb.onAnimFrame).1.selected_progress ≤
          sampleThumb.selected_progress) ∧
      ((sampleThumb.onAnimFrame).1.selected_progress =
          sampleThumb.selected_progress ∨
        (sampleThumb.onAnimFrame).1.selected_progress =
          sampleThumb.selected_progress + 1 ∨
        (sampleThumb.onAnimFrame).1.selected_progress + 1 =
          sampleThumb.selected_progress) ∧
      ((sampleThumb.onAnimFrame).2.animFrameRequested = true ↔
        (sampleThumb.onAnimFrame).1.selected_progress ≠
          sampleThumb.selected_progress)) :=
  ⟨by decide, anim_tick_step sampleThumb (by decide)⟩

/-- Claim C8 counterexample: the claim says an animation tick is scheduled
iff `progress < MAX_STEPS` (match case) resp. iff `progress > 0`
(deselect case), but thumbnail.rs lines 45-54 call `request_anim_frame`
unconditionally in both branches: a matching broadcast at progress 5 and a
deselecting broadcast at progress 0 both still schedule a tick. -/
theorem select_broadcast_tick_condition_cex :
    (((⟨0, 0, "u1", true, 5⟩ : Thumbnail).onChangeSelectedItem
          (0, 0)).2.animFrameRequested = true ∧
      ¬ (⟨0, 0, "u1", true, 5⟩ : Thumbnail).selected_progress < 5) ∧
    (((⟨1, 1, "u2", true, 0⟩ : Thumbnail).onChangeSelectedItem
          (0, 0)).2.animFrameRequested = true ∧
      ¬ (⟨1, 1, "u2", true, 0⟩ : Thumbnail).selected_progress > 0) := by
  decide

/-- Claim C8 (amended): on a matching broadcast the thumbnail sets
`selected = true` and schedules an animation tick unconditionally; on a
non-matching broadcast while selected it sets `selected = false` and
schedules a tick unconditionally (at the progress bound that tick is a
no-op); a non-matching broadcast while not selected changes nothing and
schedules nothing. -/
theorem select_broadcast_step (t : Thumbnail) (rc : Nat × Nat) :
    (rc = (t.row, t.column) →
      (t.onChangeSelectedItem rc).1.selected = true ∧
      (t.onChangeSelectedItem rc).2.animFrameRequested = true) ∧
    (rc ≠ (t.row, t.column) → t.selected = true →
      (t.onChangeSelectedItem rc).1.selected = false ∧
      (t.onChangeSelectedItem rc).2.animFrameRequested = true) ∧
    (rc ≠ (t.row, t.column) → t.selected = false →
      (t.onChangeSelectedItem rc).1 = t ∧
      (t.onChangeSelectedItem rc).2.animFrameRequested = false) := by
  obtain ⟨r, c, u, sel, p⟩ := t
  simp only [Thumbnail.onChangeSelectedItem]
  by_cases hrc : rc = (r, c) <;> cases sel <;> simp [hrc]

/-- Witness for `select_broadcast_step`: a matching broadcast on
`sampleThumb` selects it and schedules a tick. -/
theorem select_broadcast_step_witness :
    (sampleThumb.onChangeSelectedItem (0, 0)).1.selected = true ∧
    (sampleThumb.onChangeSelectedItem (0, 0)).2.animFrameRequested = true :=
  (select_broadcast_step sampleThumb (0, 0)).1 (by decide)

/-- Claim C10: every `KeyDown` — arrow or not — submits exactly one
`CHANGE_SELECTED_ITEM` command carrying the (post-update) cursor, and a
non-arrow key leaves the cursor unchanged. -/
theorem keydown_always_broadcasts (rw : RootWidget) (k : Key) (s : String) :
    (rw.onKeyDown k).2 =
      [Cmd.changeSelectedItem (rw.onKeyDown k).1.selected_item] ∧
    (rw.onKeyDown (Key.other s)).1.selected_item = rw.selected_item :=
  ⟨rfl, rfl⟩

/-- Claim C6 counterexample: the claim says ArrowDown increments the row by
exactly 1, but root_widget.rs line 99 uses `saturating_add`, so with the
cursor row at `usize::MAX` the row does not change at all. -/
theorem cursor_down_increment_cex :
    (sampleRootAtMax.onKeyDown Key.arrowDown).1.selected_item =
      (usizeMax, 0) ∧
    sampleRootAtMax.selected_item = (usizeMax, 0) ∧
    usizeMax + 1 ≠ usizeMax := by
  refine ⟨?_, rfl, by decide⟩
  simp [sampleRootAtMax, RootWidget.onKeyDown, satAdd, usizeMax]

/-- Claim C6 (amended): each arrow key updates exactly one axis of the
cursor: Down/Right increment their axis by 1 when it is below `usize::MAX`
and leave it unchanged at the bound (`saturating_add`); Up/Left decrement
their axis by 1 when it is positive and keep it at 0 otherwise
(`saturating_sub`, never negative); the other axis is unchanged in every
case — so repeated Up from (0, 0) keeps the row 0 and repeated Left keeps
the column 0. -/
theorem cursor_key_step (rw : RootWidget) :
    (rw.selected_item.1 < usizeMax →
      (rw.onKeyDown Key.arrowDown).1.selected_item =
        (rw.selected_item.1 + 1, rw.selected_item.2)) ∧
    (rw.selected_item.1 = usizeMax →
      (rw.onKeyDown Key.arrowDown).1.selected_item = rw.selected_item) ∧
    (rw.selected_item.2 < usizeMax →
      (rw.onKeyDown Key.arrowRight).1.selected_item =
        (rw.selected_item.1, rw.selected_item.2 + 1)) ∧
    (rw.selected_item.2 = usizeMax →
      (rw.onKeyDown Key.arrowRight).1.selected_item = rw.selected_item) ∧
    (0 < rw.selected_item.1 →
      (rw.onKeyDown Key.arrowUp).1.selected_item =
        (rw.selected_item.1 - 1, rw.selected_item.2)) ∧
    (rw.selected_item.1 = 0 →
      (rw.onKeyDown Key.arrowUp).1.selected_item = rw.selected_item) ∧
    (0 < rw.selected_item.2 →
      (rw.onKeyDown Key.arrowLeft).1.selected_item =
        (rw.selected_item.1, rw.selected_item.2 - 1)) ∧
    (rw.selected_item.2 = 0 →
      (rw.onKeyDown Key.arrowLeft).1.selected_item = rw.selected_item) := by
  obtain ⟨tok, ch, si⟩ := rw
  obtain ⟨row, col⟩ := si
  refine ⟨?_, ?_, ?_, ?_, ?_, ?_, ?_, ?_⟩ <;> intro h <;>
    simp_all [RootWidget.onKeyDown, satAdd, satSub, usizeMax] <;> omega

/-- Witness for `cursor_key_step` at `sampleRoot` (cursor (3, 4)): ArrowUp
moves the cursor to (2, 4). -/
theorem cursor_key_step_witness :
    0 < sampleRoot.selected_item.1 ∧
    (sampleRoot.onKeyDown Key.arrowUp).1.selected_item =
      (sampleRoot.selected_item.1 - 1, sampleRoot.selected_item.2) :=
  ⟨by decide, (cursor_key_step sampleRoot).2.2.2.2.1 (by decide)⟩

/-- After one `CHANGE_SELECTED_ITEM` step, a thumbnail is selected exactly
when its coordinate equals the broadcast coordinate, and its coordinate is
untouched (thumbnail.rs lines 43-55). -/
theorem selected_after_step (t : Thumbnail) (rc : Nat × Nat) :
    (t.onChangeSelectedItem rc).1.selected = decide (rc = t.coord) ∧
    (t.onChangeSelectedItem rc).1.coord = t.coord := by
  obtain ⟨r, c, u, sel, p⟩ := t
  simp only [Thumbnail.onChangeSelectedItem, Thumbnail.coord]
  by_cases hrc : rc = (r, c) <;> cases sel <;> simp [hrc]

/-- Over a list of thumbnails with pairwise-distinct coordinates, at most
one coordinate equals the broadcast coordinate. -/
theorem countP_coord_le_one (rc : Nat × Nat) (ts : List Thumbnail)
    (hdist : ts.Pairwise fun a b => a.coord ≠ b.coord) :
    ts.countP (fun t => decide (rc = t.coord)) ≤ 1 := by
  induction ts with
  | nil => simp
  | cons hd tl ih =>
    obtain ⟨hhd, htl⟩ := List.pairwise_cons.mp hdist
    by_cases hrc : rc = hd.coord
    · subst hrc
      have hzero : tl.countP (fun t => decide (hd.coord = t.coord)) = 0 := by
        rw [List.countP_eq_zero]
        intro a ha
        have hne := hhd a ha
        simp only [decide_eq_true_eq]
        exact fun hc => hne hc
      simp [List.countP_cons, hzero]
    · simp only [List.countP_cons, hrc, decide_eq_true_eq, if_neg hrc]
      simpa using ih htl

/-- Claim C1: delivering one `SetSelected` broadcast to every thumbnail of
a snapshot (with pairwise-distinct coordinates) sets `selected = true` on
the thumbnail whose coordinate matches and `selected = false` on every
other, so immediately after each broadcast at most one thumbnail is
selected — from any prior selection state, hence after every broadcast of
any broadcast sequence. -/
theorem broadcast_at_most_one_selected (rc : Nat × Nat) (ts : List Thumbnail)
    (hdist : ts.Pairwise fun a b => a.coord ≠ b.coord) :
    List.Forall₂
      (fun t u => u.selected = decide (rc = t.coord) ∧ u.coord = t.coord)
      ts (broadcast rc ts) ∧
    atMostOneSelected (broadcast rc ts) := by
  constructor
  · rw [broadcast, List.forall₂_map_right_iff, List.forall₂_same]
    intro t _
    exact selected_after_step t rc
  · rw [atMostOneSelected, broadcast, List.countP_map]
    have hcong :
        ts.countP ((fun u => u.selected) ∘ fun t =>
          (t.onChangeSelectedItem rc).1) =
          ts.countP (fun t => decide (rc = t.coord)) := by
      apply List.countP_congr
      intro t _
      simp [Function.comp, (selected_after_step t rc).1]
    rw [hcong]
    exact countP_coord_le_one rc ts hdist

/-- Witness for `broadcast_at_most_one_selected`: two thumbnails at (0, 0)
(currently selected) and (0, 1); broadcasting (0, 1) flips the selection. -/
theorem broadcast_at_most_one_selected_witness :
    ([⟨0, 0, "a", true, 5⟩, ⟨0, 1, "b", false, 0⟩] :
        List Thumbnail).Pairwise (fun a b => a.coord ≠ b.coord) ∧
    (List.Forall₂
      (fun t u => u.selected = decide ((0, 1) = t.coord) ∧ u.coord = t.coord)
      ([⟨0, 0, "a", true, 5⟩, ⟨0, 1, "b", false, 0⟩] : List Thumbnail)
      (broadcast (0, 1) [⟨0, 0, "a", true, 5⟩, ⟨0, 1, "b", false, 0⟩]) ∧
    atMostOneSelected
      (broadcast (0, 1) [⟨0, 0, "a", true, 5⟩, ⟨0, 1, "b", false, 0⟩])) :=
  ⟨by simp [List.pairwise_cons, Thumbnail.coord],
    broadcast_at_most_one_selected (0, 1)
      [⟨0, 0, "a", true, 5⟩, ⟨0, 1, "b", false, 0⟩]
      (by simp [List.pairwise_cons, Thumbnail.coord])⟩

/-- Claim C3: a node that accepts a delivered promise result has its
pending token cleared to empty, so delivering the same (token, result)
pair again is a no-op — the mutation is applied exactly once (token
clearing modelled from spec §4.2, see `ContentSet.onPromiseResult`). -/
theorem promise_acceptance_idempotent (cs : ContentSet) (rw : RootWidget)
    (t : Nat) (urls : List String) (metas : List ContentSetMetadata)
    (hcs : cs.children_promise = some t)
    (hrw : rw.children_promise = some t) :
    ((cs.onPromiseResult t urls).children_promise = none ∧
      (cs.onPromiseResult t urls).onPromiseResult t urls =
        cs.onPromiseResult t urls) ∧
    ((rw.onPromiseResult t metas).children_promise = none ∧
      (rw.onPromiseResult t metas).onPromiseResult t metas =
        rw.onPromiseResult t metas) := by
  simp [ContentSet.onPromiseResult, RootWidget.onPromiseResult,
    promiseAccepts, hcs, hrw]

/-- Witness for `promise_acceptance_idempotent`: the sample pending row
and root both hold token 1 and accept its result exactly once. -/
theorem promise_acceptance_idempotent_witness :
    samplePendingCS.children_promise = some 1 ∧
    samplePendingRoot.children_promise = some 1 ∧
    (((samplePendingCS.onPromiseResult 1 ["u1", "u2"]).children_promise =
          none ∧
        (samplePendingCS.onPromiseResult 1
              ["u1", "u2"]).onPromiseResult 1 ["u1", "u2"] =
          samplePendingCS.onPromiseResult 1 ["u1", "u2"]) ∧
      ((samplePendingRoot.onPromiseResult 1 [sampleMeta]).children_promise =
          none ∧
        (samplePendingRoot.onPromiseResult 1
              [sampleMeta]).onPromiseResult 1 [sampleMeta] =
          samplePendingRoot.onPromiseResult 1 [sampleMeta])) :=
  ⟨rfl, rfl,
    promise_acceptance_idempotent samplePendingCS samplePendingRoot 1
      ["u1", "u2"] [sampleMeta] rfl rfl⟩

/-- Claim C5: after a second fetch replaces the node's stored token,
delivering the first fetch's result leaves the node exactly as it was,
while delivering the second fetch's result applies the rebuild (and clears
the token), i.e. genuinely mutates the node (token uniqueness of `mint`
modelled from spec §4.2 as the hypothesis `t1 ≠ t2`). -/
theorem stale_result_rejected (cs : ContentSet) (rw : RootWidget)
    (t1 t2 : Nat) (p1 p2 : List String) (q1 q2 : List ContentSetMetadata)
    (hne : t1 ≠ t2) :
    ((cs.onWidgetAdded t1).onWidgetAdded t2).onPromiseResult t1 p1 =
      (cs.onWidgetAdded t1).onWidgetAdded t2 ∧
    ((cs.onWidgetAdded t1).onWidgetAdded t2).onPromiseResult t2 p2 =
      { (cs.onWidgetAdded t1).onWidgetAdded t2 with
        children := ContentSet.rebuildChildren cs.row cs.data.title p2
        children_promise := none } ∧
    ((cs.onWidgetAdded t1).onWidgetAdded t2).onPromiseResult t2 p2 ≠
      (cs.onWidgetAdded t1).onWidgetAdded t2 ∧
    ((rw.onWidgetAdded t1).onWidgetAdded t2).onPromiseResult t1 q1 =
      (rw.onWidgetAdded t1).onWidgetAdded t2 ∧
    ((rw.onWidgetAdded t1).onWidgetAdded t2).onPromiseResult t2 q2 =
      { (rw.onWidgetAdded t1).onWidgetAdded t2 with
        children := RootWidget.rebuildChildren q2
        children_promise := none } ∧
    ((rw.onWidgetAdded t1).onWidgetAdded t2).onPromiseResult t2 q2 ≠
      (rw.onWidgetAdded t1).onWidgetAdded t2 := by
  have h21 : t2 ≠ t1 := Ne.symm hne
  refine ⟨?_, ?_, ?_, ?_, ?_, ?_⟩
  · simp [ContentSet.onPromiseResult, ContentSet.onWidgetAdded,
      promiseAccepts, h21]
  · simp [ContentSet.onPromiseResult, ContentSet.onWidgetAdded,
      promiseAccepts]
  · intro hcontra
    have hfield := congrArg ContentSet.children_promise hcontra
    simp [ContentSet.onPromiseResult, ContentSet.onWidgetAdded,
      promiseAccepts] at hfield
  · simp [RootWidget.onPromiseResult, RootWidget.onWidgetAdded,
      promiseAccepts, h21]
  · simp [RootWidget.onPromiseResult, RootWidget.onWidgetAdded,
      promiseAccepts]
  · intro hcontra
    have hfield := congrArg RootWidget.children_promise hcontra
    simp [RootWidget.onPromiseResult, RootWidget.onWidgetAdded,
      promiseAccepts] at hfield

/-- Witness for `stale_result_rejected`: fresh tokens 1 then 2 on the
sample row and root; the stale result (token 1) is rejected and the fresh
one (token 2) applies. -/
theorem stale_result_rejected_witness :
    (1 : Nat) ≠ 2 ∧
    ((((ContentSet.new 0 sampleMeta).onWidgetAdded 1).onWidgetAdded
          2).onPromiseResult 1 ["old"] =
        ((ContentSet.new 0 sampleMeta).onWidgetAdded 1).onWidgetAdded 2 ∧
      (((ContentSet.new 0 sampleMeta).onWidgetAdded 1).onWidgetAdded
          2).onPromiseResult 2 ["new1", "new2"] =
        { ((ContentSet.new 0 sampleMeta).onWidgetAdded 1).onWidgetAdded 2 with
          children :=
            ContentSet.rebuildChildren (ContentSet.new 0 sampleMeta).row
              (ContentSet.new 0 sampleMeta).data.title ["new1", "new2"]
          children_promise := none } ∧
      (((ContentSet.new 0 sampleMeta).onWidgetAdded 1).onWidgetAdded
          2).onPromiseResult 2 ["new1", "new2"] ≠
        ((ContentSet.new 0 sampleMeta).onWidgetAdded 1).onWidgetAdded 2 ∧
      ((RootWidget.new.onWidgetAdded 1).onWidgetAdded 2).onPromiseResult 1
          [] =
        (RootWidget.new.onWidgetAdded 1).onWidgetAdded 2 ∧
      ((RootWidget.new.onWidgetAdded 1).onWidgetAdded 2).onPromiseResult 2
          [sampleMeta] =
        { (RootWidget.new.onWidgetAdded 1).onWidgetAdded 2 with
          children := RootWidget.rebuildChildren [sampleMeta]
          children_promise := none } ∧
      ((RootWidget.new.onWidgetAdded 1).onWidgetAdded 2).onPromiseResult 2
          [sampleMeta] ≠
        (RootWidget.new.onWidgetAdded 1).onWidgetAdded 2) :=
  ⟨by decide,
    stale_result_rejected (ContentSet.new 0 sampleMeta) RootWidget.new 1 2
      ["old"] ["new1", "new2"] [] [sampleMeta] (by decide)⟩

/-- Claim C9: applying a delivered fetch result touches only the node's
children — the row's index and metadata and the root's cursor are the same
before and after delivery (whether or not the token matched). -/
theorem reconcile_preserves_parent (cs : ContentSet) (rw : RootWidget)
    (t u : Nat) (urls : List String) (metas : List ContentSetMetadata) :
    (cs.onPromiseResult t urls).row = cs.row ∧
    (cs.onPromiseResult t urls).data = cs.data ∧
    (rw.onPromiseResult u metas).selected_item = rw.selected_item := by
  refine ⟨?_, ?_, ?_⟩ <;>
    simp only [ContentSet.onPromiseResult, RootWidget.onPromiseResult] <;>
    split <;> rfl

/-- Claim C7: an accepted row-fetch result of n URLs rebuilds the row's
children as the header label (the row's title) followed by a clipbox of
exactly n thumbnails, thumbnail i carrying the row's index, column i and
the i-th URL; n = 0 yields a clipbox of zero thumbnails with the label
still present. -/
theorem row_rebuild_structure (cs : ContentSet) (t : Nat)
    (urls : List String) (h : cs.children_promise = some t) :
    ∃ thumbs : List Thumbnail,
      (cs.onPromiseResult t urls).children =
        [RowChild.label cs.data.title, RowChild.clipbox thumbs] ∧
      thumbs.length = urls.length ∧
      ∀ i (hi : i < urls.length),
        thumbs[i]? = some (Thumbnail.new cs.row i (urls.get ⟨i, hi⟩)) := by
  refine ⟨urls.enum.map fun p => Thumbnail.new cs.row p.1 p.2, ?_, ?_, ?_⟩
  · simp [ContentSet.onPromiseResult, promiseAccepts, h,
      ContentSet.rebuildChildren]
  · simp
  · intro i hi
    have hsome : urls[i]? = some (urls.get ⟨i, hi⟩) :=
      List.getElem?_eq_getElem hi
    simp [List.getElem?_map, List.getElem?_enum, hsome]

/-- Witness for `row_rebuild_structure`: the sample pending row accepts
["u1", "u2"] and rebuilds a label plus two thumbnails at columns 0, 1. -/
theorem row_rebuild_structure_witness :
    samplePendingCS.children_promise = some 1 ∧
    (∃ thumbs : List Thumbnail,
      (samplePendingCS.onPromiseResult 1 ["u1", "u2"]).children =
        [RowChild.label samplePendingCS.data.title,
          RowChild.clipbox thumbs] ∧
      thumbs.length = (["u1", "u2"] : List String).length ∧
      ∀ i (hi : i < (["u1", "u2"] : List String).length),
        thumbs[i]? =
          some (Thumbnail.new samplePendingCS.row i
            ((["u1", "u2"] : List String).get ⟨i, hi⟩))) :=
  ⟨rfl, row_rebuild_structure samplePendingCS 1 ["u1", "u2"] rfl⟩

/-- Claim C4: at the failing input — a fetch that errors — the background
closures of root_widget.rs line 144 and content_set.rs line 125 call
`Result::unwrap` on the error, which panics the fetch task instead of
producing any contained, deliverable value (spec §7/§9 call this
unwrap-or-abort the source behavior being corrected). -/
theorem fetch_failure_unwrap_panics :
    rustUnwrap (Except.error FetchError.network :
        Except FetchError (List ContentSetMetadata)) = none ∧
    rustUnwrap (Except.error FetchError.malformedJson :
        Except FetchError (List String)) = none :=
  ⟨rfl, rfl⟩

end Disney
